import Mathlib

/-!
Verification development for the weather forecast service.

Shallow embedding of the request-processing pipeline of the repository:
the Lambda dispatcher (lambda_handler.py), the weather-service transformers,
models, cache and API client (src/weather_service/*.py).

Conventions of the embedding:
* Python floats are modelled as rationals.
* Instants (datetime values) are modelled as `DT`: a calendar-day number
  together with the number of seconds into that day.  ISO-8601 formatting
  followed by parsing is the identity on such values, so format/parse pairs
  are modelled as the identity.
* Python dicts coming from JSON are modelled as structures carrying exactly
  the fields the code reads; a field the code reads with `.get(k, d)` is an
  `Option` field read with `getD`.
* Fallible code returns `Except`/`Option`.
-/

/-- A UTC instant: calendar day number (days since an arbitrary epoch) and
seconds into that day.  Mirrors the `datetime` values the code manipulates. -/
structure DT where
  day : Int
  sec : Int
deriving DecidableEq, Repr

/-- Total seconds of an instant, used to compare and subtract datetimes. -/
def DT.toSecs (t : DT) : Int := t.day * 86400 + t.sec

/-- `now.replace(hour=12, minute=0, second=0, microsecond=0) + timedelta(days=1)`:
tomorrow at noon UTC (lambda_handler.extract_tomorrow_forecast, line 124). -/
def tomorrowNoon (now : DT) : DT := ⟨now.day + 1, 43200⟩

/-- models.WeatherCondition: the closed enum of internal weather conditions. -/
inductive WeatherCondition where
  | CLEAR_SKY
  | PARTLY_CLOUDY
  | CLOUDY
  | LIGHT_RAIN
  | RAIN
  | HEAVY_RAIN
  | LIGHT_SNOW
  | SNOW
  | HEAVY_SNOW
  | FOG
  | THUNDERSTORM
  | UNKNOWN
deriving DecidableEq, Repr

/-- The `.value` string of each WeatherCondition enum member. -/
def conditionValue : WeatherCondition → String
  | .CLEAR_SKY => "clearsky"
  | .PARTLY_CLOUDY => "partlycloudy"
  | .CLOUDY => "cloudy"
  | .LIGHT_RAIN => "lightrain"
  | .RAIN => "rain"
  | .HEAVY_RAIN => "heavyrain"
  | .LIGHT_SNOW => "lightsnow"
  | .SNOW => "snow"
  | .HEAVY_SNOW => "heavysnow"
  | .FOG => "fog"
  | .THUNDERSTORM => "thunderstorm"
  | .UNKNOWN => "unknown"

/-- `WeatherCondition(s)`: the Enum constructor by value, `none` when the
string is not a member value (Python raises ValueError). -/
def conditionFromValue (s : String) : Option WeatherCondition :=
  if s = "clearsky" then some .CLEAR_SKY
  else if s = "partlycloudy" then some .PARTLY_CLOUDY
  else if s = "cloudy" then some .CLOUDY
  else if s = "lightrain" then some .LIGHT_RAIN
  else if s = "rain" then some .RAIN
  else if s = "heavyrain" then some .HEAVY_RAIN
  else if s = "lightsnow" then some .LIGHT_SNOW
  else if s = "snow" then some .SNOW
  else if s = "heavysnow" then some .HEAVY_SNOW
  else if s = "fog" then some .FOG
  else if s = "thunderstorm" then some .THUNDERSTORM
  else if s = "unknown" then some .UNKNOWN
  else none

namespace Transformers

/-- transformers.WEATHER_SYMBOL_MAPPING: the static mapping from met.no
symbol codes to internal conditions (keys in source order). -/
def WEATHER_SYMBOL_MAPPING : List (String × WeatherCondition) :=
  [("clearsky_day", .CLEAR_SKY),
   ("clearsky_night", .CLEAR_SKY),
   ("clearsky_polartwilight", .CLEAR_SKY),
   ("fair_day", .PARTLY_CLOUDY),
   ("fair_night", .PARTLY_CLOUDY),
   ("fair_polartwilight", .PARTLY_CLOUDY),
   ("partlycloudy_day", .PARTLY_CLOUDY),
   ("partlycloudy_night", .PARTLY_CLOUDY),
   ("partlycloudy_polartwilight", .PARTLY_CLOUDY),
   ("cloudy", .CLOUDY),
   ("lightrain", .LIGHT_RAIN),
   ("lightrainshowers_day", .LIGHT_RAIN),
   ("lightrainshowers_night", .LIGHT_RAIN),
   ("lightrainshowers_polartwilight", .LIGHT_RAIN),
   ("rain", .RAIN),
   ("rainshowers_day", .RAIN),
   ("rainshowers_night", .RAIN),
   ("rainshowers_polartwilight", .RAIN),
   ("heavyrain", .HEAVY_RAIN),
   ("heavyrainshowers_day", .HEAVY_RAIN),
   ("heavyrainshowers_night", .HEAVY_RAIN),
   ("heavyrainshowers_polartwilight", .HEAVY_RAIN),
   ("lightsnow", .LIGHT_SNOW),
   ("lightsnowshowers_day", .LIGHT_SNOW),
   ("lightsnowshowers_night", .LIGHT_SNOW),
   ("lightsnowshowers_polartwilight", .LIGHT_SNOW),
   ("snow", .SNOW),
   ("snowshowers_day", .SNOW),
   ("snowshowers_night", .SNOW),
   ("snowshowers_polartwilight", .SNOW),
   ("heavysnow", .HEAVY_SNOW),
   ("heavysnowshowers_day", .HEAVY_SNOW),
   ("heavysnowshowers_night", .HEAVY_SNOW),
   ("heavysnowshowers_polartwilight", .HEAVY_SNOW),
   ("lightrainandthunder", .THUNDERSTORM),
   ("rainandthunder", .THUNDERSTORM),
   ("heavyrainandthunder", .THUNDERSTORM),
   ("lightsnowandthunder", .THUNDERSTORM),
   ("snowandthunder", .THUNDERSTORM),
   ("heavysnowandthunder", .THUNDERSTORM),
   ("fog", .FOG)]

/-- The symbol table with keys as character lists, for reasoning about the
underscore-splitting performed by `map_weather_symbol`. -/
def symbolTable : List (List Char × WeatherCondition) :=
  WEATHER_SYMBOL_MAPPING.map (fun kv => (kv.fst.data, kv.snd))

/-- Python `s.split("_")` on a character list.  `"".split("_") = [""]`. -/
def splitUnder : List Char → List (List Char)
  | [] => [[]]
  | c :: rest =>
    match splitUnder rest with
    | [] => [[]]
    | p :: ps => if c = '_' then [] :: p :: ps else (c :: p) :: ps

/-- Python `"_".join(parts)` on character lists. -/
def joinUnder : List (List Char) → List Char
  | [] => []
  | [p] => p
  | p :: ps => p ++ '_' :: joinUnder ps

/-- The suffix-stripping step of transformers.map_weather_symbol
(lines 254-259): split on underscore; when there are at least two parts and
the last part is a non-empty digit string (Python `"".isdigit()` is False),
rejoin all parts but the last, otherwise keep the code unchanged. -/
def stripVariantSuffix (code : List Char) : List Char :=
  let parts := splitUnder code
  match parts.getLast? with
  | some last =>
    if 2 ≤ parts.length ∧ last ≠ [] ∧ last.all Char.isDigit then
      joinUnder parts.dropLast
    else code
  | none => code

/-- transformers.map_weather_symbol: strip a trailing numeric variant suffix,
then look the base up in WEATHER_SYMBOL_MAPPING, defaulting to UNKNOWN. -/
def map_weather_symbol (symbol_code : String) : WeatherCondition :=
  (symbolTable.lookup (stripVariantSuffix symbol_code.data)).getD .UNKNOWN

end Transformers

/-- One entry of `properties.timeseries` as read by the code: its `time`,
`data.instant.details.air_temperature` and `relative_humidity` and
`wind_speed` (each possibly absent), and
`data.next_6_hours.summary.symbol_code` (possibly absent). -/
structure TSEntry where
  time : DT
  air_temperature : Option Rat
  relative_humidity : Option Rat
  wind_speed : Option Rat
  symbol_code : Option String
deriving DecidableEq, Repr

/-- The met.no payload as read by the extractors: `properties.meta.updated_at`
(possibly absent) and `properties.timeseries`. -/
structure Payload where
  metaUpdatedAt : Option DT
  timeseries : List TSEntry
deriving DecidableEq, Repr

/-- Absolute difference in seconds between an entry timestamp and the target
instant: `abs((forecast_time - tomorrow).total_seconds())`. -/
def timeDiff (e : TSEntry) (target : DT) : Int :=
  |e.time.toSecs - target.toSecs|

namespace LambdaH

/-- The selection loop of lambda_handler.extract_tomorrow_forecast
(lines 127-136) after its first iteration: starting from current best `b`,
adopt an entry exactly when its time difference is strictly smaller. -/
def selectGo (target : DT) (b : TSEntry) : List TSEntry → TSEntry
  | [] => b
  | e :: rest =>
    if timeDiff e target < timeDiff b target then selectGo target e rest
    else selectGo target b rest

/-- The full selection loop: `best_forecast` starts as None with
`min_time_diff = inf`, so the first entry is always adopted; subsequent
entries are adopted on strictly smaller difference. -/
def selectNearest (target : DT) : List TSEntry → Option TSEntry
  | [] => none
  | e :: rest => some (selectGo target e rest)

/-- The ordered symbol-substring table embedded in
lambda_handler.extract_tomorrow_forecast (lines 149-157). -/
def condition_map : List (String × String) :=
  [("clearsky", "clear"),
   ("fair", "partly_cloudy"),
   ("partlycloudy", "partly_cloudy"),
   ("cloudy", "cloudy"),
   ("rain", "rain"),
   ("snow", "snow"),
   ("fog", "fog")]

/-- The condition loop of lines 159-163: the first key of condition_map that
is a substring of the symbol code wins; otherwise "unknown". -/
def lookupCondition (symbol_code : String) : String :=
  match condition_map.find? (fun kv => decide (List.IsInfix kv.fst.data symbol_code.data)) with
  | some kv => kv.snd
  | none => "unknown"

/-- Python `round`: round half to even (banker's rounding), as used on the
extracted temperature (line 167). -/
def pyRound (q : Rat) : Int :=
  let f := Rat.floor q
  if q - f < 1/2 then f
  else if q - f > 1/2 then f + 1
  else if f % 2 = 0 then f else f + 1

/-- Python `str.title()` over a character list: uppercase a letter following
a non-letter, lowercase other letters. -/
def pyTitle : List Char → List Char :=
  go false
where
  go (prevAlpha : Bool) : List Char → List Char
    | [] => []
    | c :: rest =>
      if c.isAlpha then
        (if prevAlpha then c.toLower else c.toUpper) :: go true rest
      else c :: go false rest

/-- `symbol_code.replace("_", " ").title()` (line 171). -/
def describeSymbol (symbol_code : String) : String :=
  String.mk (pyTitle (symbol_code.data.map (fun c => if c = '_' then ' ' else c)))

/-- The forecast dictionary assembled by lambda_handler.extract_tomorrow_forecast
(lines 165-172). -/
structure ForecastData where
  temperatureValue : Int
  temperatureUnit : String
  condition : String
  description : String
deriving DecidableEq, Repr

/-- lambda_handler.extract_tomorrow_forecast: fail on an empty timeseries;
take the API timestamp from `meta.updated_at`, falling back to the time of
the first entry; pick the entry nearest to tomorrow noon UTC; read its
temperature with default 0 and its symbol code with default "unknown";
map to a condition by substring search and round the temperature. -/
def extract_tomorrow_forecast (now : DT) (p : Payload) :
    Except String (ForecastData × Option DT) :=
  if p.timeseries = [] then .error "No timeseries data found"
  else
    let api_timestamp : Option DT :=
      match p.metaUpdatedAt with
      | some t => some t
      | none => p.timeseries.head?.map (fun e => e.time)
    match selectNearest (tomorrowNoon now) p.timeseries with
    | none => .error "No suitable forecast found"
    | some best =>
      let temperature := best.air_temperature.getD 0
      let symbol := best.symbol_code.getD "unknown"
      .ok ({ temperatureValue := pyRound temperature
             temperatureUnit := "celsius"
             condition := lookupCondition symbol
             description := describeSymbol symbol }, api_timestamp)

/-- A city record as returned by the per-city pipeline of lambda_handler:
the keys cityId, cityName, country, forecast, lastUpdated, and the optional
error key present only on fallback records. -/
structure CityRecord where
  cityId : String
  cityName : String
  country : String
  forecast : ForecastData
  lastUpdated : DT
  error : Option String
deriving DecidableEq, Repr

/-- The placeholder forecast of the fallback branch of
process_city_weather_with_cache (lines 345-349). -/
def placeholderForecast : ForecastData :=
  { temperatureValue := 0
    temperatureUnit := "celsius"
    condition := "unknown"
    description := "Data unavailable" }

/-- A DynamoDB cache item as read by get_cached_weather_data: city_id,
city_name, country, the JSON-decoded forecast, last_updated and ttl
(the `N` attribute, defaulting to 0 when absent). -/
structure CacheItemL where
  city_id : String
  city_name : String
  country : String
  forecast : ForecastData
  last_updated : DT
  ttl : Int
deriving DecidableEq, Repr

/-- lambda_handler.get_cached_weather_data (lines 182-234): skip the cache
when no table is configured; treat a missing item, and an item whose
`ttl <= current_time`, as absent; otherwise return the decoded record
(which carries no error key). -/
def get_cached_weather_data (tableName : Option String) (nowSecs : Int)
    (item : Option CacheItemL) : Option CityRecord :=
  match tableName with
  | none => none
  | some _ =>
    match item with
    | none => none
    | some it =>
      if it.ttl ≤ nowSecs then none
      else some { cityId := it.city_id
                  cityName := it.city_name
                  country := it.country
                  forecast := it.forecast
                  lastUpdated := it.last_updated
                  error := none }

/-- A configured city as read from the configuration list. -/
structure CityConfigL where
  id : String
  name : String
  country : String
  latitude : Rat
  longitude : Rat
deriving DecidableEq, Repr

/-- The ambient state of one invocation of the handler: the clock, the
configured cache table, the cache content per city id, and the outcome of
`fetch_weather_data` per coordinate pair (an exception or a payload). -/
structure Env where
  now : DT
  tableName : Option String
  cacheItem : String → Option CacheItemL
  fetch : Rat → Rat → Except String Payload

/-- lambda_handler.process_city_weather_with_cache (lines 282-352): return a
fresh cache hit directly; otherwise fetch and extract, using the API
timestamp (or the current time) as lastUpdated; any failure during
fetch/extract yields the fallback record with the placeholder forecast,
current time, and an error field. -/
def process_city_weather_with_cache (env : Env) (city : CityConfigL) : CityRecord :=
  match get_cached_weather_data env.tableName env.now.toSecs (env.cacheItem city.id) with
  | some cached => cached
  | none =>
    match env.fetch city.latitude city.longitude with
    | .ok payload =>
      match extract_tomorrow_forecast env.now payload with
      | .ok (fd, apiTs) =>
        { cityId := city.id
          cityName := city.name
          country := city.country
          forecast := fd
          lastUpdated := apiTs.getD env.now
          error := none }
      | .error e =>
        { cityId := city.id, cityName := city.name, country := city.country
          forecast := placeholderForecast, lastUpdated := env.now, error := some e }
    | .error e =>
      { cityId := city.id, cityName := city.name, country := city.country
        forecast := placeholderForecast, lastUpdated := env.now, error := some e }

/-- The summary dictionary built by lambda_handler.get_weather_summary. -/
structure SummaryM where
  cities : List CityRecord
  lastUpdated : DT
  status : String
  hasErrors : Bool
deriving DecidableEq, Repr

/-- The `most_recent_update` tracking of get_weather_summary (lines 370-378):
adopt a record timestamp when none is held yet or when it is strictly later.
Every modelled timestamp is parseable, so the ValueError branch is absent. -/
def trackMostRecent (cur : Option DT) (r : CityRecord) : Option DT :=
  match cur with
  | none => some r.lastUpdated
  | some m => if m.toSecs < r.lastUpdated.toSecs then some r.lastUpdated else some m

/-- lambda_handler.get_weather_summary (lines 355-395): process every
configured city, flag hasErrors when any record carries an error key, track
the most recent lastUpdated across ALL records, and fall back to the current
time only when no timestamp was tracked. -/
def get_weather_summary (env : Env) (cities_config : List CityConfigL) : SummaryM :=
  let cities_weather := cities_config.map (process_city_weather_with_cache env)
  let has_errors := cities_weather.any (fun r => r.error.isSome)
  let most_recent_update := cities_weather.foldl trackMostRecent none
  { cities := cities_weather
    lastUpdated := most_recent_update.getD env.now
    status := if has_errors then "partial_failure" else "success"
    hasErrors := has_errors }

end LambdaH

namespace Transformers

/-- The forecast dictionary assembled by transformers.extract_tomorrow_forecast
(lines 208-213 and 227-232). -/
structure ForecastDataT where
  air_temperature : Option Rat
  relative_humidity : Option Rat
  wind_speed : Option Rat
  symbol_code : String
deriving DecidableEq, Repr

/-- The per-entry dictionary built from one timeseries entry. -/
def entryData (e : TSEntry) : ForecastDataT :=
  { air_temperature := e.air_temperature
    relative_humidity := e.relative_humidity
    wind_speed := e.wind_speed
    symbol_code := e.symbol_code.getD "unknown" }

/-- The hour of an entry timestamp (`entry_time.hour`). -/
def entryHour (t : DT) : Int := t.sec / 3600

/-- transformers.extract_tomorrow_forecast (lines 176-241): `today` is the
current calendar day.  First pass: the first entry dated tomorrow with hour
in [10, 14].  Fallback pass: the first entry dated tomorrow.  Otherwise
none (also on an empty timeseries). -/
def extract_tomorrow_forecast (today : Int) (ts : List TSEntry) : Option ForecastDataT :=
  if ts = [] then none
  else
    match ts.find? (fun e =>
        e.time.day = today + 1 ∧ 10 ≤ entryHour e.time ∧ entryHour e.time ≤ 14) with
    | some e => some (entryData e)
    | none =>
      match ts.find? (fun e => e.time.day = today + 1) with
      | some e => some (entryData e)
      | none => none

end Transformers

namespace Models

/-- models.Coordinates. -/
structure Coordinates where
  latitude : Rat
  longitude : Rat
deriving DecidableEq, Repr

/-- models.Temperature. -/
structure Temperature where
  value : Rat
  unit : String
deriving DecidableEq, Repr

/-- models.WeatherForecast.  The forecast date is a calendar-day number;
`date.isoformat()` followed by `date.fromisoformat` is the identity. -/
structure WeatherForecast where
  date : Int
  temperature : Temperature
  condition : WeatherCondition
  description : String
  icon : String
  humidity : Option Int
  wind_speed : Option Rat
deriving DecidableEq, Repr

/-- models.CityWeatherData. -/
structure CityWeatherData where
  city_id : String
  city_name : String
  country : String
  coordinates : Coordinates
  forecast : WeatherForecast
  last_updated : DT
  ttl : Option Int
deriving DecidableEq, Repr

/-- Python `s.strip()`: drop whitespace from both ends. -/
def pyStrip (l : List Char) : List Char :=
  ((l.dropWhile Char.isWhitespace).reverse.dropWhile Char.isWhitespace).reverse

/-- The `__post_init__` checks of Coordinates (models lines 37-42). -/
def coordinatesOk (lat lon : Rat) : Bool :=
  (-90 ≤ lat ∧ lat ≤ 90) ∧ (-180 ≤ lon ∧ lon ≤ 180)

/-- The `__post_init__` checks of Temperature (models lines 51-62). -/
def temperatureOk (value : Rat) (unit : String) : Bool :=
  (unit = "celsius" ∨ unit = "fahrenheit" ∨ unit = "kelvin") ∧
  (unit = "celsius" → -100 ≤ value ∧ value ≤ 60) ∧
  (unit = "fahrenheit" → -148 ≤ value ∧ value ≤ 140) ∧
  (unit = "kelvin" → 173 ≤ value ∧ value ≤ 333)

/-- The `__post_init__` checks of WeatherForecast (models lines 76-88). -/
def forecastOk (f : WeatherForecast) : Bool :=
  (f.humidity.all fun h => 0 ≤ h ∧ h ≤ 100) ∧
  (f.wind_speed.all fun w => 0 ≤ w) ∧
  pyStrip f.description.data ≠ [] ∧
  pyStrip f.icon.data ≠ []

/-- The `__post_init__` checks of CityWeatherData (models lines 102-115),
`today` being the current calendar day. -/
def cityWeatherOk (today : Int) (d : CityWeatherData) : Bool :=
  pyStrip d.city_id.data ≠ [] ∧
  pyStrip d.city_name.data ≠ [] ∧
  pyStrip d.country.data ≠ [] ∧
  coordinatesOk d.coordinates.latitude d.coordinates.longitude ∧
  temperatureOk d.forecast.temperature.value d.forecast.temperature.unit ∧
  forecastOk d.forecast ∧
  today ≤ d.forecast.date

/-- The nested dictionary produced by CityWeatherData.to_dict, with its
camelCase keys. -/
structure TempDict where
  value : Rat
  unit : String
deriving DecidableEq, Repr

/-- The `forecast` sub-dictionary of to_dict. -/
structure ForecastDict where
  date : Int
  temperature : TempDict
  condition : String
  description : String
  icon : String
  humidity : Option Int
  windSpeed : Option Rat
deriving DecidableEq, Repr

/-- The `coordinates` sub-dictionary of to_dict. -/
structure CoordDict where
  latitude : Rat
  longitude : Rat
deriving DecidableEq, Repr

/-- The full dictionary produced by CityWeatherData.to_dict. -/
structure CityWeatherDict where
  cityId : String
  cityName : String
  country : String
  coordinates : CoordDict
  forecast : ForecastDict
  lastUpdated : DT
  ttl : Option Int
deriving DecidableEq, Repr

/-- models.CityWeatherData.to_dict (lines 117-141). -/
def to_dict (d : CityWeatherData) : CityWeatherDict :=
  { cityId := d.city_id
    cityName := d.city_name
    country := d.country
    coordinates := { latitude := d.coordinates.latitude
                     longitude := d.coordinates.longitude }
    forecast := { date := d.forecast.date
                  temperature := { value := d.forecast.temperature.value
                                   unit := d.forecast.temperature.unit }
                  condition := conditionValue d.forecast.condition
                  description := d.forecast.description
                  icon := d.forecast.icon
                  humidity := d.forecast.humidity
                  windSpeed := d.forecast.wind_speed }
    lastUpdated := d.last_updated
    ttl := d.ttl }

/-- models.CityWeatherData.from_dict (lines 143-174): rebuild each component,
re-running every `__post_init__` validation (an invalid field raises, modelled
as `.error`); `WeatherCondition(s)` fails on an unknown value string. -/
def from_dict (today : Int) (data : CityWeatherDict) : Except String CityWeatherData :=
  if ¬ coordinatesOk data.coordinates.latitude data.coordinates.longitude then
    .error "invalid coordinates"
  else if ¬ temperatureOk data.forecast.temperature.value data.forecast.temperature.unit then
    .error "invalid temperature"
  else
    match conditionFromValue data.forecast.condition with
    | none => .error "invalid weather condition value"
    | some cond =>
      let forecast : WeatherForecast :=
        { date := data.forecast.date
          temperature := { value := data.forecast.temperature.value
                           unit := data.forecast.temperature.unit }
          condition := cond
          description := data.forecast.description
          icon := data.forecast.icon
          humidity := data.forecast.humidity
          wind_speed := data.forecast.windSpeed }
      if ¬ forecastOk forecast then .error "invalid forecast"
      else
        let d : CityWeatherData :=
          { city_id := data.cityId
            city_name := data.cityName
            country := data.country
            coordinates := { latitude := data.coordinates.latitude
                             longitude := data.coordinates.longitude }
            forecast := forecast
            last_updated := data.lastUpdated
            ttl := data.ttl }
        if ¬ cityWeatherOk today d then .error "invalid city weather data"
        else .ok d

end Models

namespace Cache

/-- cache.DynamoDBWeatherCache._serialize_weather_data (lines 142-167):
to_dict followed by convert_floats.  `Decimal(str(x))` represents a Python
float exactly, so the float-to-Decimal map preserves every numeric value;
it is therefore modelled as the identity on the dictionary. -/
def convert_floats (d : Models.CityWeatherDict) : Models.CityWeatherDict := d

/-- cache.DynamoDBWeatherCache._deserialize_weather_data (lines 173-199),
numeric part: `float(Decimal(str(x)))` recovers the original float exactly,
so the Decimal-to-float map is modelled as the identity. -/
def convert_decimals (d : Models.CityWeatherDict) : Models.CityWeatherDict := d

/-- The cache write path: serialize the weather data into the item that
`set_cached_weather` stores under the `weather_data` attribute. -/
def serialize_weather_data (d : Models.CityWeatherData) : Models.CityWeatherDict :=
  convert_floats (Models.to_dict d)

/-- The cache read path applied to the stored `weather_data` attribute:
convert Decimals back and rebuild via CityWeatherData.from_dict. -/
def deserialize_weather_data (today : Int) (stored : Models.CityWeatherDict) :
    Except String Models.CityWeatherData :=
  Models.from_dict today (convert_decimals stored)

/-- cache.DynamoDBWeatherCache._is_expired (lines 130-140):
`int(time.time()) >= ttl_timestamp`.  Note that cache.py as committed cannot
be imported at all: get_cached_weather contains `await
self._delete_expired_item(city_id)` (line 240) inside a synchronous def, a
SyntaxError, so no method of this module is reachable at runtime (the
repository's own tests `await` that method, so the missing `async` keyword
is the slip).  The comparison is embedded as written, as the reference for
the expiry invariant; no executable model of get_cached_weather is given,
since the source function never returns. -/
def is_expired (nowSecs ttl : Int) : Bool := ttl ≤ nowSecs

end Cache

namespace ApiClient

/-- The error taxonomy of api_client: ValueError for invalid arguments, and
the WeatherAPIError family. -/
inductive APIErr where
  | invalidArgument
  | weatherAPI
  | rateLimit
  | connection
  | malformed
deriving DecidableEq, Repr

/-- The structural view of the fetched JSON taken by get_weather_forecast:
whether it is an object with a `properties` field, and whether that has a
`timeseries` field. -/
structure RawResp where
  hasProperties : Bool
  hasTimeseries : Bool
deriving DecidableEq, Repr

/-- The request phase performed after validation: the outcome of
`_make_request` (retries included) together with the number of HTTP
attempts it made. -/
structure RequestPhase where
  result : Except APIErr RawResp
  calls : Nat

/-- api_client.WeatherAPIClient.get_weather_forecast (lines 247-309): the
coordinate and altitude checks run before any network activity; only when
they pass is `_make_request` reached, after which the response structure is
validated.  The second component counts HTTP attempts. -/
def get_weather_forecast (lat lon : Rat) (alt : Option Int) (req : RequestPhase) :
    Except APIErr RawResp × Nat :=
  if ¬ (-90 ≤ lat ∧ lat ≤ 90) then (.error .invalidArgument, 0)
  else if ¬ (-180 ≤ lon ∧ lon ≤ 180) then (.error .invalidArgument, 0)
  else
    let runReq : Except APIErr RawResp × Nat :=
      match req.result with
      | .error e => (.error e, req.calls)
      | .ok data =>
        if ¬ data.hasProperties then (.error .malformed, req.calls)
        else if ¬ data.hasTimeseries then (.error .malformed, req.calls)
        else (.ok data, req.calls)
    match alt with
    | some a =>
      if a < -500 ∨ 9000 < a then (.error .invalidArgument, 0) else runReq
    | none => runReq

end ApiClient

namespace Processor

/-- config.CityConfig as used by the processor. -/
structure CityConfigP where
  id : String
  name : String
  country : String
  coordinates : Models.Coordinates
deriving DecidableEq, Repr

/-- The task-building loop of
processor.WeatherProcessor.process_cities_weather_with_fallback
(lines 179-182): `task = self.process_city_weather(city_config.id, ...)`
CALLS the synchronous process_city_weather while building the list, so the
cities are evaluated sequentially in input order and the first per-city
exception propagates out of the method immediately; only when every call
succeeds is the list of results completed.  `run` gives the outcome of
process_city_weather per city id. -/
def tasks_loop (cities : List CityConfigP)
    (run : String → Except String Models.CityWeatherData) :
    Except String (List Models.CityWeatherData) :=
  match cities with
  | [] => .ok []
  | c :: rest =>
    match run c.id with
    | .error e => .error e
    | .ok d => (tasks_loop rest run).map (fun ds => d :: ds)

/-- processor.WeatherProcessor.process_cities_weather_with_fallback
(lines 162-207) as it actually executes: building `tasks` already runs every
per-city pipeline (see tasks_loop), so a failing city raises right there;
when all calls succeed, line 185 evaluates `asyncio.gather`, which raises
NameError because processor.py never imports asyncio.  The collection loop,
the `successful_count == 0` aggregate raise (line 205) and the final return
are therefore unreachable: the method always raises. -/
def process_cities_weather_with_fallback (cities : List CityConfigP)
    (run : String → Except String Models.CityWeatherData) :
    Except String (List Models.CityWeatherData) :=
  match tasks_loop cities run with
  | .error e => .error e
  | .ok _tasks => .error "NameError: name 'asyncio' is not defined"

end Processor

namespace Dispatcher

/-- The bodies the handler serializes: a weather summary with request
metadata, an error envelope, a health report, or plain text. -/
inductive RBody where
  | summary (s : LambdaH.SummaryM) (requestId : String)
  | errorBody (etype message : String) (requestId : Option String)
  | health (requestId : String)
  | text (s : String)

/-- A Lambda response: status code, headers (as a lookup function over
header names) and body. -/
structure Response where
  statusCode : Nat
  headers : String → Option String
  body : RBody

/-- The default headers of create_response (lambda_handler lines 423-428). -/
def defaultHeaders : String → Option String := fun k =>
  [("Content-Type", "application/json"),
   ("Access-Control-Allow-Origin", "*"),
   ("Access-Control-Allow-Headers",
     "Content-Type,X-Amz-Date,Authorization,X-Api-Key,X-Amz-Security-Token"),
   ("Access-Control-Allow-Methods", "GET,OPTIONS")].lookup k

/-- lambda_handler.create_response (lines 405-447): default headers updated
by the caller headers, then Cache-Control overridden when supplied. -/
def create_response (statusCode : Nat) (body : RBody)
    (headers : List (String × String)) (cache_control : Option String) : Response :=
  { statusCode := statusCode
    headers := fun k =>
      match cache_control with
      | some v =>
        if k = "Cache-Control" then some v
        else (headers.lookup k).orElse (fun _ => defaultHeaders k)
      | none => (headers.lookup k).orElse (fun _ => defaultHeaders k)
    body := body }

/-- lambda_handler.create_error_response (lines 450-480). -/
def create_error_response (statusCode : Nat) (message : String) (etype : String)
    (requestId : Option String) : Response :=
  create_response statusCode (.errorBody etype message requestId) [] (some "max-age=0")

/-- The outcome of get_weather_summary as observed by handle_weather_request:
a summary, a WeatherServiceError, or an unexpected exception. -/
inductive WeatherOutcome where
  | ok (s : LambdaH.SummaryM)
  | serviceError (msg : String)
  | unexpected (msg : String)

/-- lambda_handler.handle_weather_request (lines 483-534): 200 with a
freshness-dependent Cache-Control on success, 502 on WeatherServiceError,
500 otherwise. -/
def handle_weather_request (outcome : WeatherOutcome) (requestId : String) : Response :=
  match outcome with
  | .ok s =>
    create_response 200 (.summary s requestId) []
      (some (if s.hasErrors then "max-age=0" else "max-age=60"))
  | .serviceError _ =>
    create_error_response 502 "Weather service temporarily unavailable"
      "WeatherServiceError" (some requestId)
  | .unexpected _ =>
    create_error_response 500 "Internal server error" "InternalError" (some requestId)

/-- lambda_handler.handle_health_request (lines 537-576), success path. -/
def handle_health_request (requestId : String) : Response :=
  create_response 200 (.health requestId) [] (some "max-age=0")

/-- lambda_handler.handle_options_request (lines 579-598). -/
def handle_options_request : Response :=
  create_response 200 (.text "")
    [("Access-Control-Allow-Origin", "*"),
     ("Access-Control-Allow-Headers",
       "Content-Type,X-Amz-Date,Authorization,X-Api-Key,X-Amz-Security-Token"),
     ("Access-Control-Allow-Methods", "GET,OPTIONS"),
     ("Access-Control-Max-Age", "86400")]
    (some "max-age=86400")

/-- lambda_handler.lambda_handler (lines 601-646), the routing table:
OPTIONS anywhere, /health, GET on / or /weather, 405 on other methods
there, 404 elsewhere. -/
def lambda_handler (httpMethod path requestId : String)
    (outcome : WeatherOutcome) : Response :=
  if httpMethod = "OPTIONS" then handle_options_request
  else if path = "/health" then handle_health_request requestId
  else if path = "/" ∨ path = "/weather" then
    if httpMethod = "GET" then handle_weather_request outcome requestId
    else create_error_response 405 ("Method " ++ httpMethod ++ " not allowed")
      "MethodNotAllowed" (some requestId)
  else create_error_response 404 ("Path " ++ path ++ " not found")
    "NotFound" (some requestId)

/-- The hand-built catch-all 500 response of lambda_handler (lines 648-667). -/
def critical_error_response : Response :=
  { statusCode := 500
    headers := fun k =>
      [("Content-Type", "application/json"),
       ("Access-Control-Allow-Origin", "*"),
       ("Cache-Control", "max-age=0")].lookup k
    body := .errorBody "CriticalError" "Critical system error" none }

end Dispatcher

namespace Transformers

lemma splitUnder_ne_nil (l : List Char) : splitUnder l ≠ [] := by
  induction l with
  | nil => simp [splitUnder]
  | cons c rest ih =>
    simp only [splitUnder]
    cases h : splitUnder rest with
    | nil => simp
    | cons p ps => by_cases hc : c = '_' <;> simp [hc]

lemma splitUnder_append (xs ys : List Char) :
    splitUnder (xs ++ '_' :: ys) = splitUnder xs ++ splitUnder ys := by
  induction xs with
  | nil =>
    simp only [List.nil_append, splitUnder]
    cases h : splitUnder ys with
    | nil => exact absurd h (splitUnder_ne_nil ys)
    | cons p ps => simp
  | cons c xs ih =>
    simp only [List.cons_append, splitUnder, List.append_eq]
    rw [ih]
    cases h : splitUnder xs with
    | nil => exact absurd h (splitUnder_ne_nil xs)
    | cons p ps => by_cases hc : c = '_' <;> simp [hc]

lemma splitUnder_of_no_underscore (ys : List Char) (h : '_' ∉ ys) :
    splitUnder ys = [ys] := by
  induction ys with
  | nil => simp [splitUnder]
  | cons c rest ih =>
    have hc : c ≠ '_' := fun hc => h (hc ▸ List.mem_cons_self c rest)
    have hrest : '_' ∉ rest := fun hm => h (List.mem_cons_of_mem c hm)
    simp [splitUnder, ih hrest, hc]

lemma joinUnder_splitUnder (xs : List Char) : joinUnder (splitUnder xs) = xs := by
  induction xs with
  | nil => simp [splitUnder, joinUnder]
  | cons c rest ih =>
    simp only [splitUnder]
    cases h : splitUnder rest with
    | nil => exact absurd h (splitUnder_ne_nil rest)
    | cons p ps =>
      rw [h] at ih
      by_cases hc : c = '_'
      · subst hc
        simpa [joinUnder] using ih
      · cases ps with
        | nil => simpa [joinUnder, hc] using ih
        | cons q qs => simpa [joinUnder, hc] using ih

lemma stripVariantSuffix_append (base digits : List Char)
    (hne : digits ≠ []) (hdig : digits.all Char.isDigit = true) (hus : '_' ∉ digits) :
    stripVariantSuffix (base ++ '_' :: digits) = base := by
  have hsplit : splitUnder (base ++ '_' :: digits) = splitUnder base ++ [digits] := by
    rw [splitUnder_append, splitUnder_of_no_underscore digits hus]
  have hlast : (splitUnder base ++ [digits]).getLast? = some digits :=
    List.getLast?_concat _
  have hlen : 2 ≤ (splitUnder base ++ [digits]).length := by
    have := List.length_pos.mpr (splitUnder_ne_nil base)
    simp only [List.length_append, List.length_singleton]
    omega
  simp only [stripVariantSuffix, hsplit, hlast]
  rw [if_pos ⟨hlen, hne, hdig⟩, List.dropLast_concat, joinUnder_splitUnder]

end Transformers

/-- Claim C7 counterexample: the code "rain_1_2" carries the trailing
underscore-separated numeric suffix "_2" over the base code "rain_1", yet
map_weather_symbol maps the suffixed code to UNKNOWN and the base code to
RAIN, so mapping the suffixed code does NOT equal mapping the base code. -/
theorem C7_counterexample :
    "rain_1_2".data = "rain_1".data ++ '_' :: ['2'] ∧
    ['2'] ≠ [] ∧ ['2'].all Char.isDigit = true ∧
    Transformers.map_weather_symbol "rain_1_2" = .UNKNOWN ∧
    Transformers.map_weather_symbol "rain_1" = .RAIN ∧
    Transformers.map_weather_symbol "rain_1_2" ≠ Transformers.map_weather_symbol "rain_1" := by
  decide

/-- Claim C7 (amended): for every symbol code of the form base + "_" + digits
(digits non-empty, numeric, underscore-free), map_weather_symbol equals the
static-table lookup of the base (UNKNOWN when absent); it equals
map_weather_symbol of the base whenever the base itself carries no numeric
variant suffix (suffix stripping fixes it); and every code whose stripped
form is absent from the table maps to UNKNOWN. -/
theorem C7_map_symbol_amended :
    (∀ (base digits : List Char), digits ≠ [] → digits.all Char.isDigit = true →
      '_' ∉ digits →
      Transformers.map_weather_symbol (String.mk (base ++ '_' :: digits)) =
        (Transformers.symbolTable.lookup base).getD .UNKNOWN ∧
      (Transformers.stripVariantSuffix base = base →
        Transformers.map_weather_symbol (String.mk (base ++ '_' :: digits)) =
          Transformers.map_weather_symbol (String.mk base))) ∧
    (∀ code : String,
      Transformers.symbolTable.lookup (Transformers.stripVariantSuffix code.data) = none →
      Transformers.map_weather_symbol code = .UNKNOWN) := by
  constructor
  · intro base digits hne hdig hus
    have hstrip : Transformers.stripVariantSuffix (base ++ '_' :: digits) = base :=
      Transformers.stripVariantSuffix_append base digits hne hdig hus
    constructor
    · simp [Transformers.map_weather_symbol, hstrip]
    · intro hfix
      simp [Transformers.map_weather_symbol, hstrip, hfix]
  · intro code hnone
    simp [Transformers.map_weather_symbol, hnone]

/-- Claim C7 witness: mapping "rain_2" equals mapping "rain" (both RAIN),
and the unmapped code "nonsense" maps to UNKNOWN. -/
theorem C7_witness :
    Transformers.map_weather_symbol (String.mk ("rain".data ++ '_' :: ['2'])) =
      Transformers.map_weather_symbol (String.mk "rain".data) ∧
    Transformers.map_weather_symbol "nonsense" = .UNKNOWN :=
  ⟨(C7_map_symbol_amended.1 "rain".data ['2'] (by decide) (by decide) (by decide)).2
      (by decide),
   C7_map_symbol_amended.2 "nonsense" (by decide)⟩

namespace LambdaH

/-- The loop invariant of the nearest-entry selection: selectGo returns
either the starting best (no strictly closer entry exists in the list) or
the first entry of the list that strictly improves on everything before it
and on the start, and which no later entry strictly improves on. -/
lemma selectGo_spec (target : DT) (l : List TSEntry) (b : TSEntry) (r : TSEntry)
    (hr : selectGo target b l = r) :
    (r = b ∧ ∀ x ∈ l, timeDiff b target ≤ timeDiff x target) ∨
    (∃ pre suf, l = pre ++ r :: suf ∧
      timeDiff r target < timeDiff b target ∧
      (∀ x ∈ pre, timeDiff r target < timeDiff x target) ∧
      (∀ x ∈ suf, timeDiff r target ≤ timeDiff x target)) := by
  induction l generalizing b with
  | nil => exact Or.inl ⟨hr.symm, by simp⟩
  | cons e rest ih =>
    by_cases h : timeDiff e target < timeDiff b target
    · rw [selectGo, if_pos h] at hr
      rcases ih e hr with ⟨heq, hall⟩ | ⟨pre, suf, hsplit, hlt, hpre, hsuf⟩
      · refine Or.inr ⟨[], rest, ?_, ?_, ?_, ?_⟩
        · simp [heq]
        · rw [heq]; exact h
        · simp
        · rw [heq]; exact hall
      · refine Or.inr ⟨e :: pre, suf, ?_, ?_, ?_, ?_⟩
        · rw [hsplit, List.cons_append]
        · exact lt_trans hlt h
        · intro x hx
          rcases List.mem_cons.mp hx with hx | hx
          · subst hx; exact hlt
          · exact hpre x hx
        · exact hsuf
    · rw [selectGo, if_neg h] at hr
      rcases ih b hr with ⟨heq, hall⟩ | ⟨pre, suf, hsplit, hlt, hpre, hsuf⟩
      · refine Or.inl ⟨heq, ?_⟩
        intro x hx
        rcases List.mem_cons.mp hx with hx | hx
        · subst hx; exact le_of_not_lt h
        · exact hall x hx
      · refine Or.inr ⟨e :: pre, suf, ?_, hlt, ?_, hsuf⟩
        · rw [hsplit, List.cons_append]
        · intro x hx
          rcases List.mem_cons.mp hx with hx | hx
          · subst hx; exact lt_of_lt_of_le hlt (le_of_not_lt h)
          · exact hpre x hx

end LambdaH

/-- Claim C2 counterexample: with the current day 0, tomorrow noon UTC is
day 1 at second 43200.  The timeseries holds an entry at 10:00 tomorrow
(difference 7200 s) and an entry at 12:00 tomorrow (difference 0 s).  The
transformers-module selection (one of the two cited implementations of the
forecast-entry selection) returns the data of the 10:00 entry, although the
12:00 entry has the strictly smallest absolute time difference to the
target, refuting the claim for that implementation. -/
theorem C2_counterexample :
    let e1 : TSEntry :=
      { time := ⟨1, 36000⟩, air_temperature := some 10,
        relative_humidity := none, wind_speed := none,
        symbol_code := some "cloudy" }
    let e2 : TSEntry :=
      { time := ⟨1, 43200⟩, air_temperature := some 12,
        relative_humidity := none, wind_speed := none,
        symbol_code := some "rain" }
    Transformers.extract_tomorrow_forecast 0 [e1, e2] =
      some (Transformers.entryData e1) ∧
    timeDiff e2 (tomorrowNoon ⟨0, 0⟩) < timeDiff e1 (tomorrowNoon ⟨0, 0⟩) ∧
    Transformers.entryData e1 ≠ Transformers.entryData e2 := by
  refine ⟨?_, by decide, by decide⟩
  simp [Transformers.extract_tomorrow_forecast, Transformers.entryHour, List.find?]

/-- Claim C2 (amended): the handler-embedded selection
(lambda_handler.extract_tomorrow_forecast) does satisfy the claim: for every
non-empty timeseries it computes the target tomorrow at noon UTC and
returns an entry of the series with minimal absolute time difference to
that target, and that entry is the first such in series order (every
earlier entry has a strictly larger difference).  The transformers-module
selection instead uses a same-calendar-day 10:00-14:00 window with fallback
to the first entry on the next day. -/
theorem C2_nearest_selection (now : DT) (ts : List TSEntry) (hne : ts ≠ []) :
    ∃ e, LambdaH.selectNearest (tomorrowNoon now) ts = some e ∧
      e ∈ ts ∧
      (∀ x ∈ ts, timeDiff e (tomorrowNoon now) ≤ timeDiff x (tomorrowNoon now)) ∧
      ∃ pre suf, ts = pre ++ e :: suf ∧
        ∀ x ∈ pre, timeDiff e (tomorrowNoon now) < timeDiff x (tomorrowNoon now) := by
  match ts, hne with
  | e0 :: rest, _ =>
    refine ⟨LambdaH.selectGo (tomorrowNoon now) e0 rest, rfl, ?_⟩
    generalize hg : LambdaH.selectGo (tomorrowNoon now) e0 rest = r
    rcases LambdaH.selectGo_spec (tomorrowNoon now) rest e0 r hg with ⟨heq, hall⟩ |
      ⟨pre, suf, hsplit, hlt, hpre, hsuf⟩
    · subst heq
      refine ⟨by simp, ?_, [], rest, by simp, by simp⟩
      intro x hx
      rcases List.mem_cons.mp hx with hx | hx
      · simp [hx]
      · exact hall x hx
    · refine ⟨?_, ?_, e0 :: pre, suf, ?_, ?_⟩
      · rw [hsplit]
        exact List.mem_cons_of_mem e0 (by simp)
      · intro x hx
        rcases List.mem_cons.mp hx with hx | hx
        · subst hx; exact le_of_lt hlt
        · rw [hsplit] at hx
          rcases List.mem_append.mp hx with hx | hx
          · exact le_of_lt (hpre x hx)
          · rcases List.mem_cons.mp hx with hx | hx
            · simp [hx]
            · exact hsuf x hx
      · rw [hsplit, List.cons_append]
      · intro x hx
        rcases List.mem_cons.mp hx with hx | hx
        · subst hx; exact hlt
        · exact hpre x hx

/-- The two timeseries entries used to witness the nearest-entry selection. -/
def wEntry1 : TSEntry :=
  { time := ⟨1, 36000⟩, air_temperature := some 10,
    relative_humidity := none, wind_speed := none,
    symbol_code := some "cloudy" }

/-- Second witness entry, at tomorrow noon exactly. -/
def wEntry2 : TSEntry :=
  { time := ⟨1, 43200⟩, air_temperature := some 12,
    relative_humidity := none, wind_speed := none,
    symbol_code := some "rain" }

/-- Claim C2 witness: the nearest-entry selection applied to a concrete
non-empty two-entry series. -/
theorem C2_witness :
    ∃ e, LambdaH.selectNearest (tomorrowNoon ⟨0, 0⟩) [wEntry1, wEntry2] = some e ∧
      e ∈ [wEntry1, wEntry2] ∧
      (∀ x ∈ [wEntry1, wEntry2],
        timeDiff e (tomorrowNoon ⟨0, 0⟩) ≤ timeDiff x (tomorrowNoon ⟨0, 0⟩)) ∧
      ∃ pre suf, [wEntry1, wEntry2] = pre ++ e :: suf ∧
        ∀ x ∈ pre, timeDiff e (tomorrowNoon ⟨0, 0⟩) < timeDiff x (tomorrowNoon ⟨0, 0⟩) :=
  C2_nearest_selection ⟨0, 0⟩ [wEntry1, wEntry2] (by decide)

/-- Claim C9: every response produced by the dispatcher entry point, on
every routing path (OPTIONS, health, weather in all three outcomes, 405,
404) and on the catch-all 500 branch, carries the headers
Content-Type: application/json and Access-Control-Allow-Origin: *. -/
theorem C9_headers_always_present (httpMethod path requestId : String)
    (outcome : Dispatcher.WeatherOutcome) :
    ((Dispatcher.lambda_handler httpMethod path requestId outcome).headers
        "Content-Type" = some "application/json" ∧
      (Dispatcher.lambda_handler httpMethod path requestId outcome).headers
        "Access-Control-Allow-Origin" = some "*") ∧
    (Dispatcher.critical_error_response.headers "Content-Type" =
        some "application/json" ∧
      Dispatcher.critical_error_response.headers "Access-Control-Allow-Origin" =
        some "*") := by
  constructor
  · unfold Dispatcher.lambda_handler
    split_ifs <;>
      first
        | exact ⟨rfl, rfl⟩
        | (cases outcome <;> exact ⟨rfl, rfl⟩)
  · exact ⟨rfl, rfl⟩

lemma conditionFromValue_conditionValue (c : WeatherCondition) :
    conditionFromValue (conditionValue c) = some c := by
  cases c <;> rfl

/-- Claim C8: serializing a valid CityWeatherData through the cache write
path (to_dict plus float-to-Decimal conversion) and deserializing the
result (Decimal-to-float conversion plus from_dict) returns exactly the
original record; every re-run validation passes because the original
record satisfied it. -/
theorem C8_cache_roundtrip (today : Int) (x : Models.CityWeatherData)
    (h : Models.cityWeatherOk today x = true) :
    Cache.deserialize_weather_data today (Cache.serialize_weather_data x) = .ok x := by
  obtain ⟨cid, cname, country, ⟨lat, lon⟩,
    ⟨fdate, ⟨tv, tu⟩, cond, desc, icon, hum, wind⟩, lu, ttl⟩ := x
  have hprop := h
  simp only [Models.cityWeatherOk, decide_eq_true_eq] at hprop
  obtain ⟨hid, hname, hcountry, hcoord, htemp, hfc, hdate⟩ := hprop
  unfold Cache.deserialize_weather_data Cache.serialize_weather_data
    Cache.convert_floats Cache.convert_decimals Models.from_dict Models.to_dict
  rw [if_neg (by simpa using hcoord), if_neg (by simpa using htemp)]
  simp only [conditionFromValue_conditionValue]
  rw [if_neg (by simpa using hfc), if_neg (by simpa using h)]

/-- A concrete valid CityWeatherData record for the round-trip witness. -/
def xC8 : Models.CityWeatherData :=
  { city_id := "oslo"
    city_name := "Oslo"
    country := "Norway"
    coordinates := { latitude := 59, longitude := 10 }
    forecast := { date := 1
                  temperature := { value := 15, unit := "celsius" }
                  condition := .PARTLY_CLOUDY
                  description := "Partly cloudy"
                  icon := "partly_cloudy_day"
                  humidity := some 65
                  wind_speed := some 3 }
    last_updated := ⟨0, 43200⟩
    ttl := some 3600 }

/-- Claim C8 witness: the round trip on the concrete valid record. -/
theorem C8_witness :
    Models.cityWeatherOk 0 xC8 = true ∧
    Cache.deserialize_weather_data 0 (Cache.serialize_weather_data xC8) = .ok xC8 :=
  ⟨by decide, C8_cache_roundtrip 0 xC8 (by decide)⟩

namespace LambdaH

lemma get_cached_weather_data_error_none (tn : Option String) (now : Int)
    (item : Option CacheItemL) (r : CityRecord)
    (h : get_cached_weather_data tn now item = some r) : r.error = none := by
  unfold get_cached_weather_data at h
  rcases tn with _ | t
  · simp at h
  · rcases item with _ | it
    · simp at h
    · dsimp only at h
      split at h
      · simp at h
      · injection h with h
        exact h ▸ rfl

/-- A record produced by the per-city pipeline that carries an error key is
the fallback record: placeholder forecast and the current time. -/
lemma process_city_error_fallback (env : Env) (c : CityConfigL)
    (h : (process_city_weather_with_cache env c).error.isSome = true) :
    (process_city_weather_with_cache env c).forecast = placeholderForecast ∧
    (process_city_weather_with_cache env c).lastUpdated = env.now := by
  unfold process_city_weather_with_cache at h ⊢
  cases hc : get_cached_weather_data env.tableName env.now.toSecs (env.cacheItem c.id) with
  | some cached =>
    simp only [hc] at h ⊢
    have hnone := get_cached_weather_data_error_none _ _ _ _ hc
    rw [hnone] at h
    exact absurd h (by simp)
  | none =>
    simp only [hc] at h ⊢
    cases hf : env.fetch c.latitude c.longitude with
    | error e => simp only [hf] at h ⊢; simp
    | ok payload =>
      simp only [hf] at h ⊢
      cases he : extract_tomorrow_forecast env.now payload with
      | error e => simp only [he] at h ⊢; simp
      | ok pair =>
        obtain ⟨fd, apiTs⟩ := pair
        simp only [he] at h
        simp at h

/-- The most-recent-update fold starting from a held value returns a value
it has seen, at least as late as the held value and as every list element. -/
lemma trackMostRecent_spec (l : List CityRecord) (m : DT) :
    ∃ d, l.foldl trackMostRecent (some m) = some d ∧
      (d = m ∨ d ∈ l.map (fun r => r.lastUpdated)) ∧
      m.toSecs ≤ d.toSecs ∧
      ∀ r ∈ l, r.lastUpdated.toSecs ≤ d.toSecs := by
  induction l generalizing m with
  | nil => exact ⟨m, rfl, Or.inl rfl, le_refl _, by simp⟩
  | cons r rest ih =>
    simp only [List.foldl_cons]
    by_cases hlt : m.toSecs < r.lastUpdated.toSecs
    · have hstep : trackMostRecent (some m) r = some r.lastUpdated := by
        simp [trackMostRecent, hlt]
      rw [hstep]
      obtain ⟨d, hfold, hmem, hle, hall⟩ := ih r.lastUpdated
      refine ⟨d, hfold, ?_, le_trans (le_of_lt hlt) hle, ?_⟩
      · rcases hmem with hmem | hmem
        · exact Or.inr (by simp [hmem])
        · exact Or.inr (List.mem_cons_of_mem _ hmem)
      · intro x hx
        rcases List.mem_cons.mp hx with hx | hx
        · subst hx; exact hle
        · exact hall x hx
    · have hstep : trackMostRecent (some m) r = some m := by
        simp [trackMostRecent, hlt]
      rw [hstep]
      obtain ⟨d, hfold, hmem, hle, hall⟩ := ih m
      refine ⟨d, hfold, ?_, hle, ?_⟩
      · rcases hmem with hmem | hmem
        · exact Or.inl hmem
        · exact Or.inr (List.mem_cons_of_mem _ hmem)
      · intro x hx
        rcases List.mem_cons.mp hx with hx | hx
        · subst hx; exact le_trans (le_of_not_lt hlt) hle
        · exact hall x hx

end LambdaH

/-- Claim C1: when 4 cities are configured and the per-city pipeline fails
for city number 2 (its record carries an error) while the other 3 succeed,
get_weather_summary returns 4 records, record number 2 carries an error
field and the zero/unknown placeholder forecast, and the summary has
status "partial_failure" and hasErrors true. -/
theorem C1_partial_failure_aggregation (env : LambdaH.Env)
    (c1 c2 c3 c4 : LambdaH.CityConfigL)
    (_h1 : (LambdaH.process_city_weather_with_cache env c1).error = none)
    (h2 : (LambdaH.process_city_weather_with_cache env c2).error.isSome = true)
    (_h3 : (LambdaH.process_city_weather_with_cache env c3).error = none)
    (_h4 : (LambdaH.process_city_weather_with_cache env c4).error = none) :
    (LambdaH.get_weather_summary env [c1, c2, c3, c4]).cities.length = 4 ∧
    (∃ r, (LambdaH.get_weather_summary env [c1, c2, c3, c4]).cities.get? 1 = some r ∧
      r.error.isSome = true ∧ r.forecast = LambdaH.placeholderForecast) ∧
    (LambdaH.get_weather_summary env [c1, c2, c3, c4]).status = "partial_failure" ∧
    (LambdaH.get_weather_summary env [c1, c2, c3, c4]).hasErrors = true := by
  have hfb := LambdaH.process_city_error_fallback env c2 h2
  unfold LambdaH.get_weather_summary
  simp only [List.map_cons, List.map_nil]
  have herr : ([LambdaH.process_city_weather_with_cache env c1,
      LambdaH.process_city_weather_with_cache env c2,
      LambdaH.process_city_weather_with_cache env c3,
      LambdaH.process_city_weather_with_cache env c4].any
        (fun r => r.error.isSome)) = true := by
    simp [List.any_cons, h2]
  refine ⟨rfl,
    ⟨LambdaH.process_city_weather_with_cache env c2, rfl, h2, hfb.1⟩, ?_, ?_⟩
  · show (if _ = true then "partial_failure" else "success") = "partial_failure"
    rw [herr, if_pos rfl]
  · show List.any _ _ = true
    exact herr

/-- The four city configurations and the invocation state of the C1
witness: the cache is empty, fetching city 2 (latitude 2) raises a
WeatherAPIError, and fetching any other city succeeds with a one-entry
timeseries. -/
def envC1 : LambdaH.Env :=
  { now := ⟨0, 0⟩
    tableName := some "weather-forecast-cache"
    cacheItem := fun _ => none
    fetch := fun lat _lon =>
      if lat = 2 then .error "WeatherAPIError: 502 Bad Gateway"
      else .ok { metaUpdatedAt := none
                 timeseries := [{ time := ⟨1, 43200⟩, air_temperature := some 15,
                                  relative_humidity := none, wind_speed := none,
                                  symbol_code := some "clearsky_day" }] } }

/-- First witness city (succeeds). -/
def cityW1 : LambdaH.CityConfigL := ⟨"oslo", "Oslo", "Norway", 1, 10⟩

/-- Second witness city (its fetch raises). -/
def cityW2 : LambdaH.CityConfigL := ⟨"paris", "Paris", "France", 2, 20⟩

/-- Third witness city (succeeds). -/
def cityW3 : LambdaH.CityConfigL := ⟨"london", "London", "United Kingdom", 3, 30⟩

/-- Fourth witness city (succeeds). -/
def cityW4 : LambdaH.CityConfigL := ⟨"barcelona", "Barcelona", "Spain", 4, 40⟩

/-- Claim C1 witness: the aggregation applied to the concrete 4-city
environment in which exactly city 2 fails. -/
theorem C1_witness :
    (LambdaH.get_weather_summary envC1 [cityW1, cityW2, cityW3, cityW4]).cities.length = 4 ∧
    (∃ r, (LambdaH.get_weather_summary envC1
        [cityW1, cityW2, cityW3, cityW4]).cities.get? 1 = some r ∧
      r.error.isSome = true ∧ r.forecast = LambdaH.placeholderForecast) ∧
    (LambdaH.get_weather_summary envC1 [cityW1, cityW2, cityW3, cityW4]).status =
      "partial_failure" ∧
    (LambdaH.get_weather_summary envC1 [cityW1, cityW2, cityW3, cityW4]).hasErrors = true := by
  refine C1_partial_failure_aggregation envC1 cityW1 cityW2 cityW3 cityW4 ?_ ?_ ?_ ?_
  · simp [LambdaH.process_city_weather_with_cache, envC1, cityW1,
      LambdaH.get_cached_weather_data, LambdaH.extract_tomorrow_forecast,
      LambdaH.selectNearest, LambdaH.selectGo]
  · simp [LambdaH.process_city_weather_with_cache, envC1, cityW2,
      LambdaH.get_cached_weather_data]
  · simp [LambdaH.process_city_weather_with_cache, envC1, cityW3,
      LambdaH.get_cached_weather_data, LambdaH.extract_tomorrow_forecast,
      LambdaH.selectNearest, LambdaH.selectGo]
  · simp [LambdaH.process_city_weather_with_cache, envC1, cityW4,
      LambdaH.get_cached_weather_data, LambdaH.extract_tomorrow_forecast,
      LambdaH.selectNearest, LambdaH.selectGo]

/-- Claim C3 (amended): the summary lastUpdated equals the maximum
lastUpdated across ALL city records, successful or not; since failed
records carry the current wall-clock time as lastUpdated, a failed city can
determine the summary timestamp.  The current-time fallback applies only
when no record contributed a timestamp (no cities configured). -/
theorem C3_summary_last_updated_amended (env : LambdaH.Env)
    (cities : List LambdaH.CityConfigL) (hne : cities ≠ []) :
    (LambdaH.get_weather_summary env cities).lastUpdated ∈
      (LambdaH.get_weather_summary env cities).cities.map (fun r => r.lastUpdated) ∧
    ∀ r ∈ (LambdaH.get_weather_summary env cities).cities,
      r.lastUpdated.toSecs ≤ (LambdaH.get_weather_summary env cities).lastUpdated.toSecs := by
  match cities, hne with
  | c :: rest, _ =>
    unfold LambdaH.get_weather_summary
    simp only [List.map_cons, List.foldl_cons]
    have hstart : LambdaH.trackMostRecent none (LambdaH.process_city_weather_with_cache env c) =
        some (LambdaH.process_city_weather_with_cache env c).lastUpdated := rfl
    rw [hstart]
    obtain ⟨d, hfold, hmem, hle, hall⟩ :=
      LambdaH.trackMostRecent_spec (rest.map (LambdaH.process_city_weather_with_cache env))
        (LambdaH.process_city_weather_with_cache env c).lastUpdated
    rw [hfold]
    constructor
    · rcases hmem with h | h
      · simp [h]
      · simp only [List.map_cons, Option.getD_some]
        exact List.mem_cons_of_mem _ h
    · intro r hr
      rcases List.mem_cons.mp hr with hr | hr
      · subst hr
        simpa using hle
      · simpa using hall r hr

/-- The invocation state of the C3 counterexample: the cache is empty,
fetching city A (latitude 1) succeeds with provider timestamp day 0, and
fetching city B (latitude 2) raises; the current time is day 5. -/
def envC3 : LambdaH.Env :=
  { now := ⟨5, 0⟩
    tableName := some "weather-forecast-cache"
    cacheItem := fun _ => none
    fetch := fun lat _lon =>
      if lat = 2 then .error "WeatherAPIError: connection refused"
      else .ok { metaUpdatedAt := some ⟨0, 0⟩
                 timeseries := [{ time := ⟨6, 43200⟩, air_temperature := some 10,
                                  relative_humidity := none, wind_speed := none,
                                  symbol_code := some "cloudy" }] } }

/-- Successful counterexample city. -/
def cityX1 : LambdaH.CityConfigL := ⟨"oslo", "Oslo", "Norway", 1, 10⟩

/-- Failing counterexample city. -/
def cityX2 : LambdaH.CityConfigL := ⟨"paris", "Paris", "France", 2, 20⟩

/-- Claim C3 counterexample: city A succeeds with lastUpdated day 0 (the
provider timestamp), city B fails and its fallback record carries the
current time day 5.  The only successfully processed city has lastUpdated
day 0, so the claim demands summary lastUpdated day 0; the code returns
day 5, the timestamp of the FAILED record, because the maximum is tracked
across all records. -/
theorem C3_counterexample :
    ((LambdaH.get_weather_summary envC3 [cityX1, cityX2]).cities.filter
        (fun r => r.error.isNone)).map (fun r => r.lastUpdated) = [⟨0, 0⟩] ∧
    (LambdaH.get_weather_summary envC3 [cityX1, cityX2]).lastUpdated = ⟨5, 0⟩ ∧
    ((⟨5, 0⟩ : DT) ≠ ⟨0, 0⟩) := by
  refine ⟨?_, ?_, by decide⟩ <;>
    norm_num [LambdaH.get_weather_summary, LambdaH.process_city_weather_with_cache,
      envC3, cityX1, cityX2, LambdaH.get_cached_weather_data,
      LambdaH.extract_tomorrow_forecast, LambdaH.selectNearest, LambdaH.selectGo,
      LambdaH.trackMostRecent, DT.toSecs]

/-- Claim C3 witness (for the amended claim): the two-city counterexample
environment is non-empty, so the summary timestamp is the maximum across
all its records. -/
theorem C3_witness :
    (LambdaH.get_weather_summary envC3 [cityX1, cityX2]).lastUpdated ∈
      (LambdaH.get_weather_summary envC3 [cityX1, cityX2]).cities.map
        (fun r => r.lastUpdated) ∧
    ∀ r ∈ (LambdaH.get_weather_summary envC3 [cityX1, cityX2]).cities,
      r.lastUpdated.toSecs ≤
        (LambdaH.get_weather_summary envC3 [cityX1, cityX2]).lastUpdated.toSecs :=
  C3_summary_last_updated_amended envC3 [cityX1, cityX2] (by decide)

/-- Claim C10: when the cache misses, the fetch succeeds, and the selected
forecast entry carries no air_temperature reading, the per-city pipeline
still succeeds: the record carries no error field and its forecast
temperature is 0 celsius (the `.get("air_temperature", 0)` default, rounded). -/
theorem C10_missing_temperature_defaults_zero (env : LambdaH.Env)
    (c : LambdaH.CityConfigL) (payload : Payload) (e : TSEntry)
    (hcache : LambdaH.get_cached_weather_data env.tableName env.now.toSecs
      (env.cacheItem c.id) = none)
    (hfetch : env.fetch c.latitude c.longitude = .ok payload)
    (hsel : LambdaH.selectNearest (tomorrowNoon env.now) payload.timeseries = some e)
    (htemp : e.air_temperature = none) :
    (LambdaH.process_city_weather_with_cache env c).error = none ∧
    (LambdaH.process_city_weather_with_cache env c).forecast.temperatureValue = 0 ∧
    (LambdaH.process_city_weather_with_cache env c).forecast.temperatureUnit = "celsius" := by
  have hne : payload.timeseries ≠ [] := by
    intro hempty
    rw [hempty] at hsel
    simp [LambdaH.selectNearest] at hsel
  have h0 : LambdaH.pyRound 0 = 0 := by
    norm_num [LambdaH.pyRound, Rat.floor]
  unfold LambdaH.process_city_weather_with_cache
  simp only [hcache, hfetch]
  unfold LambdaH.extract_tomorrow_forecast
  simp only [if_neg hne, hsel, htemp, Option.getD_none, h0]
  simp

/-- The invocation state of the C10 witness: empty cache, successful fetch
whose single timeseries entry carries no air_temperature. -/
def envC10 : LambdaH.Env :=
  { now := ⟨0, 0⟩
    tableName := some "weather-forecast-cache"
    cacheItem := fun _ => none
    fetch := fun _lat _lon =>
      .ok { metaUpdatedAt := none
            timeseries := [{ time := ⟨1, 43200⟩, air_temperature := none,
                             relative_humidity := none, wind_speed := none,
                             symbol_code := some "cloudy" }] } }

/-- The city of the C10 witness. -/
def cityC10 : LambdaH.CityConfigL := ⟨"oslo", "Oslo", "Norway", 1, 10⟩

/-- Claim C10 witness: the pipeline on the concrete no-temperature entry. -/
theorem C10_witness :
    (LambdaH.process_city_weather_with_cache envC10 cityC10).error = none ∧
    (LambdaH.process_city_weather_with_cache envC10 cityC10).forecast.temperatureValue = 0 ∧
    (LambdaH.process_city_weather_with_cache envC10 cityC10).forecast.temperatureUnit =
      "celsius" :=
  C10_missing_temperature_defaults_zero envC10 cityC10
    { metaUpdatedAt := none
      timeseries := [{ time := ⟨1, 43200⟩, air_temperature := none,
                       relative_humidity := none, wind_speed := none,
                       symbol_code := some "cloudy" }] }
    { time := ⟨1, 43200⟩, air_temperature := none,
      relative_humidity := none, wind_speed := none,
      symbol_code := some "cloudy" }
    (by simp [LambdaH.get_cached_weather_data, envC10])
    (by simp [envC10, cityC10])
    (by simp [envC10, tomorrowNoon, LambdaH.selectNearest, LambdaH.selectGo])
    rfl

/-- Claim C6: for every latitude outside [-90, 90], longitude outside
[-180, 180], or provided altitude outside [-500, 9000],
get_weather_forecast fails with the invalid-argument error (ValueError) and
performs zero network calls, whatever the network would have answered. -/
theorem C6_invalid_coordinates_no_network (lat lon : Rat) (alt : Option Int)
    (req : ApiClient.RequestPhase)
    (h : lat < -90 ∨ 90 < lat ∨ lon < -180 ∨ 180 < lon ∨
      (∃ a, alt = some a ∧ (a < -500 ∨ 9000 < a))) :
    ApiClient.get_weather_forecast lat lon alt req =
      (.error .invalidArgument, 0) := by
  unfold ApiClient.get_weather_forecast
  rcases h with h | h | h | h | ⟨a, ha, hr⟩
  · rw [if_pos (by intro hc; linarith [hc.1])]
  · rw [if_pos (by intro hc; linarith [hc.2])]
  · by_cases hlat : -90 ≤ lat ∧ lat ≤ 90
    · rw [if_neg (by simpa using hlat), if_pos (by intro hc; linarith [hc.1])]
    · rw [if_pos (by simpa using hlat)]
  · by_cases hlat : -90 ≤ lat ∧ lat ≤ 90
    · rw [if_neg (by simpa using hlat), if_pos (by intro hc; linarith [hc.2])]
    · rw [if_pos (by simpa using hlat)]
  · subst ha
    by_cases hlat : -90 ≤ lat ∧ lat ≤ 90
    · by_cases hlon : -180 ≤ lon ∧ lon ≤ 180
      · rw [if_neg (by simpa using hlat), if_neg (by simpa using hlon)]
        simp only [if_pos hr]
      · rw [if_neg (by simpa using hlat), if_pos (by simpa using hlon)]
    · rw [if_pos (by simpa using hlat)]

/-- Claim C6 witness: fetch(latitude=91, longitude=0) fails with the
invalid-argument error and performs zero network calls, even though the
network stands ready to answer successfully. -/
theorem C6_witness :
    ApiClient.get_weather_forecast 91 0 none
      { result := .ok { hasProperties := true, hasTimeseries := true }, calls := 1 } =
      (.error .invalidArgument, 0) :=
  C6_invalid_coordinates_no_network 91 0 none _ (by norm_num)

/-- Claim C5: when processing fails for every configured city, the
resilient aggregation raises an error and never returns a summary value.
Under the faithful execution model the raise is the FIRST city's own
exception, propagated while the tasks list is being built (the aggregate
WeatherAPIError of line 205 is unreachable); with an empty configuration
the method still raises (NameError at `asyncio.gather`). -/
theorem C5_all_failures_raise (cities : List Processor.CityConfigP)
    (run : String → Except String Models.CityWeatherData)
    (h : ∀ c ∈ cities, ∃ e, run c.id = .error e) :
    ∃ e, Processor.process_cities_weather_with_fallback cities run = .error e := by
  cases cities with
  | nil =>
    exact ⟨"NameError: name 'asyncio' is not defined", rfl⟩
  | cons c rest =>
    obtain ⟨e, he⟩ := h c (List.mem_cons_self c rest)
    refine ⟨e, ?_⟩
    simp only [Processor.process_cities_weather_with_fallback, Processor.tasks_loop, he]

/-- Claim C5 witness: with one configured city whose processing fails, the
resilient aggregation raises (the city's own error). -/
theorem C5_witness :
    ∃ e, Processor.process_cities_weather_with_fallback
      [{ id := "oslo", name := "Oslo", country := "Norway",
         coordinates := { latitude := 59.9139, longitude := 10.7522 } }]
      (fun _ => .error "API down") = .error e :=
  C5_all_failures_raise _ _ (fun _ _ => ⟨"API down", rfl⟩)

/-- Claim C4 (a code bug in cache.py): for every city id, current time and
stored cache entry whose TTL timestamp satisfies now >= ttl, the read path
that can actually run — the handler-embedded get_cached_weather_data, whose
guard is `ttl <= current_time` — treats the entry as absent and returns
None, and the cache-module expiry comparison _is_expired is exactly
now >= ttl.  The cache-module get_cached_weather itself never exhibits the
claimed (and documented) behavior: cache.py fails to parse, see is_expired. -/
theorem C4_expired_entry_absent (tableName : Option String) (nowSecs ttl : Int)
    (itemL : LambdaH.CacheItemL)
    (hL : itemL.ttl ≤ nowSecs) (ht : ttl ≤ nowSecs) :
    LambdaH.get_cached_weather_data tableName nowSecs (some itemL) = none ∧
    Cache.is_expired nowSecs ttl = true := by
  constructor
  · unfold LambdaH.get_cached_weather_data
    cases tableName with
    | none => rfl
    | some t => simp [hL]
  · simp [Cache.is_expired, ht]

/-- Claim C4 witness: an entry with ttl = now - 1 (now = 1000) is treated
as absent by the runnable read path, and the cache-module comparison marks
it expired. -/
theorem C4_witness :
    LambdaH.get_cached_weather_data (some "weather-forecast-cache") 1000
      (some { city_id := "oslo", city_name := "Oslo", country := "Norway",
              forecast := LambdaH.placeholderForecast,
              last_updated := ⟨0, 0⟩, ttl := 999 }) = none ∧
    Cache.is_expired 1000 999 = true :=
  C4_expired_entry_absent (some "weather-forecast-cache") 1000 999
    { city_id := "oslo", city_name := "Oslo", country := "Norway",
      forecast := LambdaH.placeholderForecast,
      last_updated := ⟨0, 0⟩, ttl := 999 }
    (by decide) (by decide)
